import Mathlib

/-!
Verification of the ganache transaction component (transaction factory and
legacy transaction) against its natural-language specification.

The embedding follows the TypeScript sources:
- `transaction-factory.ts` (classification and the three construction entry
  points `fromRpc`, `fromDatabaseTx`, `fromString`),
- `legacy-transaction.ts` (signed/unsigned construction, `signAndHash`,
  `toEthRawTransaction`, `toVmTransaction`).

Buffers are modelled as `List Nat` of byte values; `Quantity` values are
modelled by their canonical (minimal big-endian) buffer form.  The RLP codec
(`@ganache/rlp`: `encodeRange` and `digest`) is modelled concretely as the
standard RLP byte-string and list encodings.  `keccak` and the secp256k1
operations (`ecsign`, public-key recovery) are external primitives and are
taken as parameters.
-/

namespace Ganache

/-- A byte buffer, each entry one byte. -/
abbrev Bytes := List Nat

/-- Minimal big-endian byte representation of a natural number
(`Quantity.toBuffer`): zero is the empty buffer, no leading zero byte.
Fuel-indexed helper so the definition is structural. -/
def natToBEgo : Nat → Nat → Bytes → Bytes
  | 0, _, acc => acc
  | fuel + 1, n, acc => if n = 0 then acc else natToBEgo fuel (n / 256) (n % 256 :: acc)

/-- Minimal big-endian bytes of `n` (`Quantity.from(n).toBuffer()`). -/
def natToBE (n : Nat) : Bytes :=
  natToBEgo n n []

/-- Big-endian bytes to natural number (the `BN` view of a buffer). -/
def bytesToNat (b : Bytes) : Nat :=
  b.foldl (fun acc x => acc * 256 + x) 0

/-- Canonicalization applied by `Quantity.from(buffer)`: drop leading zero
bytes (zero becomes the empty buffer). -/
def stripLeadingZeros : Bytes → Bytes
  | [] => []
  | 0 :: rest => stripLeadingZeros rest
  | b => b

/-! ## RLP codec (`@ganache/rlp`, consumed as an external black box by the
spec; modelled concretely here as the standard RLP encodings). -/

/-- RLP encoding of a single byte string. -/
def rlpEncodeBytes (b : Bytes) : Bytes :=
  if b.length = 1 ∧ b.headD 0 < 0x80 then b
  else if b.length ≤ 55 then (0x80 + b.length) :: b
  else (0xb7 + (natToBE b.length).length) :: (natToBE b.length ++ b)

/-- RLP list header for a payload of `len` bytes. -/
def rlpListHeader (len : Nat) : Bytes :=
  if len ≤ 55 then [0xc0 + len]
  else (0xf7 + (natToBE len).length) :: natToBE len

/-- Result of `encodeRange`: the per-item encodings and their total byte
length. -/
structure EncodedPart where
  output : List Bytes
  length : Nat
deriving DecidableEq, Repr

/-- `encodeRange(items, start, count)` from `@ganache/rlp`: RLP-encode the
items in `[start, start+count)` individually, also reporting the total
encoded byte length. -/
def encodeRange (raw : List Bytes) (start count : Nat) : EncodedPart :=
  let items := ((raw.drop start).take count).map rlpEncodeBytes
  ⟨items, (items.map List.length).sum⟩

/-- `digest(ranges, length)` from `@ganache/rlp`: concatenate the encoded
ranges and wrap them in an RLP list header computed from the caller-supplied
total payload length. -/
def digest (ranges : List (List Bytes)) (length : Nat) : Bytes :=
  rlpListHeader length ++ (ranges.map List.flatten).flatten

/-- Plain RLP encoding of a list of byte strings (the external codec's
`encode` of a flat list); used to state serialization properties. -/
def rlpList (items : List Bytes) : Bytes :=
  let payload := (items.map rlpEncodeBytes).flatten
  rlpListHeader payload.length ++ payload

/-! ## Transaction factory (`transaction-factory.ts`) -/

/-- The transaction variants the factory can produce (`LegacyTransaction`
and `EIP2930AccessListTransaction`). -/
inductive TxClass
  | legacy
  | accessList
deriving DecidableEq, Repr

/-- `TransactionFactory.typeOf`.  The argument is `data[0]`-style byte
access, hence `Option Nat`: `none` models JavaScript `undefined`.  In
JavaScript `undefined >= 0xc0` is false, so the first disjunct only fires on
an actual byte.  A fall-through (no matching variant) returns `undefined`,
modelled as `none`. -/
def typeOf (type : Option Nat) : Option TxClass :=
  if (match type with | some t => decide (0xc0 ≤ t) | none => false)
      || type == some 0x0 || type == none then
    some TxClass.legacy
  else if type == some 0x1 then
    some TxClass.accessList
  else
    none

/-- `TransactionFactory.fromDatabaseTx`, modelled up to variant dispatch: it
returns the chosen variant together with the field array handed to that
variant's `fromTxData` constructor.  The classifying byte is
`txData[0][0]`; the constructor receives `txData.slice(1)`. -/
def fromDatabaseTx (txData : List Bytes) : Except String (TxClass × List Bytes) :=
  let type := (txData.getD 0 []).head?
  let data := txData.drop 1
  match typeOf type with
  | some TxClass.legacy => Except.ok (TxClass.legacy, data)
  | some TxClass.accessList => Except.ok (TxClass.accessList, data)
  | none => Except.error "Tx instantiation with type not supported"

/-- `TransactionFactory.fromString`, modelled up to variant dispatch: it
returns the chosen variant together with the exact byte sequence handed to
the RLP `decode` call.  `type` is `data[0]` (`none` on an empty buffer).
In the legacy branch the source strips the first byte only when
`type === undefined`. -/
def fromString (data : Bytes) : Except String (TxClass × Bytes) :=
  let type := data.head?
  match typeOf type with
  | some TxClass.legacy =>
    let data := if type = none then data.drop 1 else data
    Except.ok (TxClass.legacy, data)
  | some TxClass.accessList =>
    Except.ok (TxClass.accessList, data.drop 1)
  | none => Except.error "Tx instantiation with type not supported"

/-! ## Legacy transaction (`legacy-transaction.ts`) -/

/-- In-memory state of a `LegacyTransaction`.  Field buffers are the
canonical `Quantity`/`Data`/`Address` buffer forms; `to` is the empty buffer
for the null-address sentinel.  `v`, `r`, `s` and the derived fields are
`none` while the transaction is unsigned. -/
structure LegacyTx where
  chainId : Nat
  type : Bytes := []
  nonce : Bytes
  gasPrice : Bytes
  gas : Bytes
  toAddr : Bytes
  value : Bytes
  data : Bytes
  v : Option Bytes := none
  r : Option Bytes := none
  s : Option Bytes := none
  fromAddr : Option Bytes := none
  raw : Option (List Bytes) := none
  serialized : Option Bytes := none
  hash : Option Bytes := none
  encodedData : Option EncodedPart := none
  encodedSignature : Option EncodedPart := none
deriving DecidableEq, Repr

/-- `LegacyTransaction.toEthRawTransaction`: the 10-slot raw field array
`[type, nonce, gasPrice, gas, to, value, data, v, r, s]`.  The `type` slot
is `Quantity.from("0x0").toBuffer()`, the empty buffer. -/
def LegacyTx.toEthRawTransaction (tx : LegacyTx) (v r s : Bytes) : List Bytes :=
  [tx.type, tx.nonce, tx.gasPrice, tx.gas, tx.toAddr, tx.value, tx.data, v, r, s]

/-- Result of `ecsign` from `ethereumjs-util`: the recovery value `v`
(already chain-id-bound, `recoveryId + chainId*2 + 35`) and the two 32-byte
signature components. -/
structure Sig where
  v : Nat
  r : Bytes
  s : Bytes
deriving DecidableEq, Repr

/-- The byte sequence hashed to obtain the EIP-155 signing hash inside
`signAndHash`: `digest` of `encodeRange(raw, 1, 6)` and
`encodeRange(raw, 7, 3)` over the raw array built with the chain id as the
`v` placeholder and empty `r`/`s` slots. -/
def signingMsgPreimage (tx : LegacyTx) : Bytes :=
  let raw := tx.toEthRawTransaction (natToBE tx.chainId) [] []
  let data := encodeRange raw 1 6
  let ending := encodeRange raw 7 3
  digest [data.output, ending.output] (data.length + ending.length)

/-- Error message thrown by `signAndHash` on an already-signed instance. -/
def alreadySignedError : String :=
  "Internal Error: RuntimeTransaction `sign` called but transaction has already been signed"

/-- The signed transaction produced by the non-error path of
`LegacyTransaction.signAndHash`: sign the EIP-155 message hash, rebuild the
raw array with the real `(v, r, s)`, recompute the serialized bytes from the
cached unsigned-field encoding plus a freshly encoded signature segment, and
recompute the hash as keccak256 of those serialized bytes.
`Quantity.from(sig.v)` yields minimal big-endian bytes; `Quantity.from(sig.r)`
/ `(sig.s)` canonicalize the 32-byte buffers by stripping leading zeros. -/
def signedTx (keccak : Bytes → Bytes) (ecsign : Bytes → Bytes → Nat → Sig)
    (privateKey : Bytes) (tx : LegacyTx) : LegacyTx :=
  let chainId := tx.chainId
  let raw := tx.toEthRawTransaction (natToBE chainId) [] []
  let data := encodeRange raw 1 6
  let dataLength := data.length
  let msgHash := keccak (signingMsgPreimage tx)
  let sig := ecsign msgHash privateKey chainId
  let v := natToBE sig.v
  let r := stripLeadingZeros sig.r
  let s := stripLeadingZeros sig.s
  let raw := ((raw.set 7 v).set 8 r).set 9 s
  let encodedSignature := encodeRange raw 7 3
  let serialized :=
    digest [data.output, encodedSignature.output] (dataLength + encodedSignature.length)
  { tx with
    v := some v, r := some r, s := some s,
    raw := some raw,
    serialized := some serialized,
    hash := some (keccak serialized),
    encodedData := some data,
    encodedSignature := some encodedSignature }

/-- `LegacyTransaction.signAndHash(privateKey)`.  `keccak` and `ecsign`
(deterministic ECDSA over secp256k1, arguments message hash, private key,
chain id) are external primitives taken as parameters. -/
def signAndHash (keccak : Bytes → Bytes) (ecsign : Bytes → Bytes → Nat → Sig)
    (privateKey : Bytes) (tx : LegacyTx) : Except String LegacyTx :=
  if tx.v ≠ none then
    Except.error alreadySignedError
  else
    Except.ok (signedTx keccak ecsign privateKey tx)

/-- Derived state produced by `computeInstrinsicsLegacyTx` in `signing.ts`. -/
structure Intrinsics where
  fromAddr : Bytes
  serialized : Bytes
  hash : Bytes
  encodedData : EncodedPart
  encodedSignature : EncodedPart
deriving DecidableEq, Repr

/-- Modelled from the spec: `computeInstrinsicsLegacyTx` lives in
`signing.ts`, which is not among the provided sources.  Per the spec it
recovers the sender from `(v, r, s, signing hash)` — chain-id-bound recovery
when `v` encodes an EIP-155 value, the legacy `{27, 28}` scheme otherwise —
failing when recovery yields no valid point; it produces the canonical
serialized form (RLP of the full field list for legacy, the type slot
excluded) and its keccak256 hash, caching the unsigned-field encoding and
the signature encoding separately.  `recover` (secp256k1 public-key
recovery, arguments v, r, s, message hash) is an external primitive taken
as a parameter. -/
def computeInstrinsicsLegacyTx (keccak : Bytes → Bytes)
    (recover : Bytes → Bytes → Bytes → Bytes → Option Bytes)
    (v : Bytes) (raw : List Bytes) (chainId : Nat) : Except String Intrinsics :=
  let encodedData := encodeRange raw 1 6
  let encodedSignature := encodeRange raw 7 3
  let serialized :=
    digest [encodedData.output, encodedSignature.output]
      (encodedData.length + encodedSignature.length)
  let vN := bytesToNat v
  let msgHash :=
    if vN = 27 ∨ vN = 28 then
      keccak (rlpList ((raw.drop 1).take 6))
    else
      keccak (rlpList ((raw.drop 1).take 6 ++ [natToBE chainId, [], []]))
  match recover v (raw.getD 8 []) (raw.getD 9 []) msgHash with
  | none => Except.error "InvalidSignatureError"
  | some fromAddr =>
    Except.ok { fromAddr, serialized, hash := keccak serialized,
                encodedData, encodedSignature }

/-- The `LegacyTransaction` constructor applied to a 9-field database
payload `[nonce, gasPrice, gas, to, value, data, v, r, s]` (the
`Array.isArray(data)` branch): canonicalize the fields, keep the original
buffers in `raw` (with the empty type buffer prepended), and eagerly compute
the derived state via `computeInstrinsicsLegacyTx`.  `to` must be empty
(null-address sentinel) or 20 bytes (`MalformedAddressError` otherwise). -/
def LegacyTx.fromTxData (keccak : Bytes → Bytes)
    (recover : Bytes → Bytes → Bytes → Bytes → Option Bytes)
    (chainId : Nat) (payload : List Bytes) : Except String LegacyTx :=
  let toField := payload.getD 3 []
  if toField.length ≠ 0 ∧ toField.length ≠ 20 then
    Except.error "MalformedAddressError"
  else
    let raw := ([] : Bytes) :: payload
    let v := stripLeadingZeros (payload.getD 6 [])
    match computeInstrinsicsLegacyTx keccak recover v raw chainId with
    | Except.error e => Except.error e
    | Except.ok intr =>
      Except.ok {
        chainId,
        nonce := stripLeadingZeros (payload.getD 0 []),
        gasPrice := stripLeadingZeros (payload.getD 1 []),
        gas := stripLeadingZeros (payload.getD 2 []),
        toAddr := toField,
        value := stripLeadingZeros (payload.getD 4 []),
        data := payload.getD 5 [],
        v := some v,
        r := some (stripLeadingZeros (payload.getD 7 [])),
        s := some (stripLeadingZeros (payload.getD 8 [])),
        fromAddr := some intr.fromAddr,
        raw := some raw,
        serialized := some intr.serialized,
        hash := some intr.hash,
        encodedData := some intr.encodedData,
        encodedSignature := some intr.encodedSignature }

/-- `BUFFER_32_ZERO` from `@ganache/utils`. -/
def BUFFER_32_ZERO : Bytes := List.replicate 32 0

/-- The execution-engine adapter object returned by
`LegacyTransaction.toVmTransaction`.  `BN` values are modelled by the
natural number a buffer denotes; the capability argument of `supports` is
modelled as an opaque code. -/
structure VmTransaction where
  hash : Unit → Bytes
  nonce : Nat
  gasPrice : Nat
  gasLimit : Nat
  toAddr : Option Bytes
  value : Nat
  data : Bytes
  getUpfrontCost : Unit → Nat
  supports : Nat → Bool

/-- `LegacyTransaction.toVmTransaction`.  `getUpfrontCost` is
`gas.toBigInt() * gasPrice.toBigInt() + value.toBigInt()` over exact
(arbitrary-precision) integers; the surrounding `try`/`catch` rethrows any
error unchanged. -/
def toVmTransaction (tx : LegacyTx) : VmTransaction :=
  { hash := fun _ => BUFFER_32_ZERO,
    nonce := bytesToNat tx.nonce,
    gasPrice := bytesToNat tx.gasPrice,
    gasLimit := bytesToNat tx.gas,
    toAddr := if tx.toAddr.length = 0 then none else some tx.toAddr,
    value := bytesToNat tx.value,
    data := tx.data,
    getUpfrontCost := fun _ =>
      bytesToNat tx.gas * bytesToNat tx.gasPrice + bytesToNat tx.value,
    supports := fun _ => false }

/-! ## Concrete instances used to exercise the theorems -/

/-- A stand-in for the external keccak256 primitive, used to instantiate the
parametric theorems on concrete inputs. -/
def keccakStub : Bytes → Bytes := fun _ => List.replicate 32 7

/-- A stand-in for the external `ecsign` primitive producing recovery id 1
(`v = 35 + chainId * 2`), used to instantiate the parametric theorems. -/
def ecsignStub : Bytes → Bytes → Nat → Sig :=
  fun _ _ chainId => ⟨35 + 2 * chainId, List.replicate 32 1, List.replicate 32 2⟩

/-- A stand-in for the external secp256k1 public-key recovery primitive. -/
def recoverStub : Bytes → Bytes → Bytes → Bytes → Option Bytes :=
  fun _ _ _ _ => some (List.replicate 20 3)

/-- A concrete 32-byte private key. -/
def pkStub : Bytes := List.replicate 32 9

/-- A concrete unsigned legacy transaction on chain id 1. -/
def txUnsigned : LegacyTx :=
  { chainId := 1, nonce := [1], gasPrice := [1], gas := [82, 8],
    toAddr := [], value := [], data := [] }

/-- A concrete legacy transaction with gas 21000, gas price 1 and value 0. -/
def tx21000 : LegacyTx :=
  { chainId := 1, nonce := [], gasPrice := natToBE 1, gas := natToBE 21000,
    toAddr := [], value := natToBE 0, data := [] }

/-- A concrete signed 9-field legacy database payload (contract creation,
`to` empty). -/
def payload9 : List Bytes := [[1], [1], [82, 8], [], [], [], [37], [1], [1]]

/-! ## Theorems -/

/-- Key structural fact about the source's serialization calls: `digest` of
`encodeRange(raw, 1, 6)` and `encodeRange(raw, 7, 3)` over a 10-slot raw
array, with the total length the source passes, is exactly the plain RLP
list encoding of slots 1 through 9 — the leading type slot is excluded. -/
theorem digest_encodeRange_eq_rlpList (t a b c d e f g h i : Bytes) :
    digest [(encodeRange [t, a, b, c, d, e, f, g, h, i] 1 6).output,
            (encodeRange [t, a, b, c, d, e, f, g, h, i] 7 3).output]
      ((encodeRange [t, a, b, c, d, e, f, g, h, i] 1 6).length +
        (encodeRange [t, a, b, c, d, e, f, g, h, i] 7 3).length)
      = rlpList [a, b, c, d, e, f, g, h, i] := by
  simp only [digest, encodeRange, rlpList, List.drop, List.take, List.map,
    List.flatten_cons, List.flatten_nil, List.sum_cons, List.sum_nil,
    List.append_nil, List.append_assoc, List.length_append]
  congr 1
  congr 1
  omega

/-- C1: `fromString` hands the RLP decoder the *unstripped* byte sequence
when the first byte is the explicit literal `0x00` type byte — the strip
condition `type === undefined` can only fire on an empty buffer, so no strip
happens on `[0x00, 0xc0]` (first conjunct); inputs whose first byte is
`≥ 0xC0` are likewise passed through whole, as the spec requires (second
conjunct).  The first conjunct exhibits the divergence from the spec
sentence "exactly that one byte must be stripped before decoding". -/
theorem fromString_explicit_type_byte_not_stripped :
    fromString [0x00, 0xc0] = Except.ok (TxClass.legacy, [0x00, 0xc0]) ∧
    fromString [0xc0, 0x01] = Except.ok (TxClass.legacy, [0xc0, 0x01]) :=
  ⟨rfl, rfl⟩

/-- C2: `typeOf` maps absent input to Legacy, byte `0x00` to Legacy, byte
`0x01` to AccessList, every byte `≥ 0xC0` to Legacy, and every other byte
value (for example `0x02`) to no variant at all. -/
theorem typeOf_classification :
    typeOf none = some TxClass.legacy ∧
    typeOf (some 0x00) = some TxClass.legacy ∧
    typeOf (some 0x01) = some TxClass.accessList ∧
    typeOf (some 0x02) = none ∧
    (∀ b : Nat, 0xc0 ≤ b → typeOf (some b) = some TxClass.legacy) ∧
    (∀ b : Nat, b < 0xc0 → b ≠ 0 → b ≠ 1 → typeOf (some b) = none) := by
  refine ⟨by decide, by decide, by decide, by decide, ?_, ?_⟩
  · intro b hb
    simp [typeOf, hb]
  · intro b hb h0 h1
    simp [typeOf, Nat.not_le.mpr hb, h0, h1]

/-- Witness for C2: the general clauses of `typeOf_classification` evaluated
at the concrete bytes `0xff` (Legacy) and `0x05` (unsupported). -/
theorem typeOf_classification_witness :
    typeOf (some 0xff) = some TxClass.legacy ∧ typeOf (some 0x05) = none :=
  ⟨typeOf_classification.2.2.2.2.1 0xff (by decide),
   typeOf_classification.2.2.2.2.2 0x05 (by decide) (by decide) (by decide)⟩

/-- C3: calling `signAndHash` on an instance whose `v` is already set fails
with the already-signed error and performs no signing; on an unsigned
instance (`v` absent) the error branch is not taken — the call succeeds, and
a subsequent `signAndHash` on the result always fails with the
already-signed error. -/
theorem signAndHash_once (keccak : Bytes → Bytes) (ecsign : Bytes → Bytes → Nat → Sig)
    (privateKey : Bytes) (tx : LegacyTx) :
    (∀ b, tx.v = some b →
      signAndHash keccak ecsign privateKey tx = Except.error alreadySignedError) ∧
    (tx.v = none → ∃ tx2,
      signAndHash keccak ecsign privateKey tx = Except.ok tx2 ∧
      signAndHash keccak ecsign privateKey tx2 = Except.error alreadySignedError) := by
  constructor
  · intro b hb
    simp [signAndHash, hb]
  · intro hv
    refine ⟨signedTx keccak ecsign privateKey tx, ?_, ?_⟩
    · simp [signAndHash, hv]
    · simp [signAndHash, signedTx]

/-- Witness for C3: signing the concrete unsigned transaction succeeds and
re-signing its result fails with the already-signed error. -/
theorem signAndHash_once_witness :
    ∃ tx2, signAndHash keccakStub ecsignStub pkStub txUnsigned = Except.ok tx2 ∧
      signAndHash keccakStub ecsignStub pkStub tx2 = Except.error alreadySignedError :=
  (signAndHash_once keccakStub ecsignStub pkStub txUnsigned).2 rfl

/-- C4: the EIP-155 signing-hash preimage built inside `signAndHash` is the
RLP encoding of exactly the nine fields from `nonce` through the empty `s`
slot — `[nonce, gasPrice, gas, to, value, data, chainId, empty, empty]` —
with the leading type slot of the 10-slot raw array excluded; and the
signature stored by a successful `signAndHash` is `ecsign` applied to the
keccak256 of that preimage. -/
theorem signing_hash_preimage (keccak : Bytes → Bytes) (ecsign : Bytes → Bytes → Nat → Sig)
    (privateKey : Bytes) (tx : LegacyTx) :
    signingMsgPreimage tx =
      rlpList [tx.nonce, tx.gasPrice, tx.gas, tx.toAddr, tx.value, tx.data,
        natToBE tx.chainId, [], []] ∧
    (tx.v = none → ∃ tx2,
      signAndHash keccak ecsign privateKey tx = Except.ok tx2 ∧
      tx2.v = some (natToBE
        (ecsign (keccak (signingMsgPreimage tx)) privateKey tx.chainId).v)) := by
  constructor
  · unfold signingMsgPreimage LegacyTx.toEthRawTransaction
    exact digest_encodeRange_eq_rlpList _ _ _ _ _ _ _ _ _ _
  · intro hv
    refine ⟨signedTx keccak ecsign privateKey tx, ?_, ?_⟩
    · simp [signAndHash, hv]
    · rfl

/-- Witness for C4: `signing_hash_preimage` applied to the concrete unsigned
transaction, its unsigned-state hypothesis discharged by evaluation. -/
theorem signing_hash_preimage_witness :
    ∃ tx2, signAndHash keccakStub ecsignStub pkStub txUnsigned = Except.ok tx2 ∧
      tx2.v = some (natToBE
        (ecsignStub (keccakStub (signingMsgPreimage txUnsigned)) pkStub
          txUnsigned.chainId).v) :=
  (signing_hash_preimage keccakStub ecsignStub pkStub txUnsigned).2 rfl

/-- C5: after `signAndHash` completes, the stored serialized bytes are the
RLP digest of the cached unsigned-field encoding with a freshly encoded
`(v, r, s)` signature segment (the cached unsigned encoding agrees with
re-encoding slots 1–6 of the final raw array, which differs from the
original only in the signature slots), and the stored hash is keccak256 of
exactly those serialized bytes. -/
theorem serialized_hash_consistent (keccak : Bytes → Bytes)
    (ecsign : Bytes → Bytes → Nat → Sig) (privateKey : Bytes) (tx : LegacyTx)
    (hv : tx.v = none) :
    ∃ tx2 d es rawArr,
      signAndHash keccak ecsign privateKey tx = Except.ok tx2 ∧
      tx2.raw = some rawArr ∧
      tx2.encodedData = some d ∧
      tx2.encodedSignature = some es ∧
      d = encodeRange rawArr 1 6 ∧
      es = encodeRange rawArr 7 3 ∧
      tx2.serialized = some (digest [d.output, es.output] (d.length + es.length)) ∧
      tx2.hash = some (keccak (digest [d.output, es.output] (d.length + es.length))) := by
  refine ⟨signedTx keccak ecsign privateKey tx, _, _, _, ?_, rfl, rfl, rfl, ?_, rfl, rfl, rfl⟩
  · simp [signAndHash, hv]
  · simp [signedTx, encodeRange, LegacyTx.toEthRawTransaction]

/-- Witness for C5: `serialized_hash_consistent` at the concrete unsigned
transaction, its unsigned-state hypothesis discharged by evaluation. -/
theorem serialized_hash_consistent_witness :
    ∃ tx2 d es rawArr,
      signAndHash keccakStub ecsignStub pkStub txUnsigned = Except.ok tx2 ∧
      tx2.raw = some rawArr ∧
      tx2.encodedData = some d ∧
      tx2.encodedSignature = some es ∧
      d = encodeRange rawArr 1 6 ∧
      es = encodeRange rawArr 7 3 ∧
      tx2.serialized = some (digest [d.output, es.output] (d.length + es.length)) ∧
      tx2.hash = some (keccakStub (digest [d.output, es.output] (d.length + es.length))) :=
  serialized_hash_consistent keccakStub ecsignStub pkStub txUnsigned rfl

/-- C6: constructing a signed legacy transaction from any valid 9-field
database payload and taking its serialized byte form yields output
byte-identical to the plain RLP encoding of that same payload
(decode-then-reserialize round-trip). -/
theorem roundtrip_serialization (keccak : Bytes → Bytes)
    (recover : Bytes → Bytes → Bytes → Bytes → Option Bytes)
    (chainId : Nat) (payload : List Bytes) (h9 : payload.length = 9) :
    ∀ tx, LegacyTx.fromTxData keccak recover chainId payload = Except.ok tx →
      tx.serialized = some (rlpList payload) := by
  match payload, h9 with
  | [a, b, c, d, e, f, g, h, i], _ =>
    intro tx htx
    simp only [LegacyTx.fromTxData, computeInstrinsicsLegacyTx] at htx
    split at htx
    · exact absurd htx (by simp)
    · split at htx
      · exact absurd htx (by simp)
      · rename_i intr heq
        split at heq
        · exact absurd heq (by simp)
        · rename_i addr hrec
          rw [Except.ok.injEq] at heq
          subst heq
          rw [Except.ok.injEq] at htx
          subst htx
          exact congrArg some (digest_encodeRange_eq_rlpList [] a b c d e f g h i)

/-- Witness for C6: the concrete 9-field payload constructs successfully and
its serialized form is the RLP encoding of the payload, via
`roundtrip_serialization` with both hypotheses discharged by evaluation. -/
theorem roundtrip_serialization_witness :
    ∃ tx, LegacyTx.fromTxData keccakStub recoverStub 1 payload9 = Except.ok tx ∧
      tx.serialized = some (rlpList payload9) :=
  ⟨_, rfl, roundtrip_serialization keccakStub recoverStub 1 payload9 rfl _ rfl⟩

/-- C7: `getUpfrontCost` on the execution view is exactly
`gas * gasPrice + value` over unbounded integers — no wrapping or
saturation is possible — and for gas 21000, gas price 1, value 0 it returns
21000. -/
theorem getUpfrontCost_exact (tx : LegacyTx) :
    (toVmTransaction tx).getUpfrontCost () =
        bytesToNat tx.gas * bytesToNat tx.gasPrice + bytesToNat tx.value ∧
    (tx.gas = natToBE 21000 → tx.gasPrice = natToBE 1 → tx.value = natToBE 0 →
      (toVmTransaction tx).getUpfrontCost () = 21000) := by
  refine ⟨rfl, ?_⟩
  intro hg hp hv
  show bytesToNat tx.gas * bytesToNat tx.gasPrice + bytesToNat tx.value = 21000
  rw [hg, hp, hv]
  decide

/-- Witness for C7: `getUpfrontCost_exact` at the concrete transaction with
gas 21000, gas price 1, value 0. -/
theorem getUpfrontCost_exact_witness :
    (toVmTransaction tx21000).getUpfrontCost () = 21000 :=
  (getUpfrontCost_exact tx21000).2 rfl rfl rfl

/-- C8: the execution-view capability query `supports` returns `false` for
every legacy transaction instance and every capability argument. -/
theorem toVmTransaction_supports_false (tx : LegacyTx) (capability : Nat) :
    (toVmTransaction tx).supports capability = false := rfl

/-- C9: `fromDatabaseTx` classifies every record by the first byte of its
first element and hands the matching variant constructor the record with the
first element removed; in particular a record whose first element is the
empty byte string is classified Legacy (the inspected byte is absent) and
constructed from the following fields. -/
theorem fromDatabaseTx_dispatch (txData : List Bytes) :
    (∀ cls rest, fromDatabaseTx txData = Except.ok (cls, rest) →
      rest = txData.drop 1 ∧ typeOf ((txData.getD 0 []).head?) = some cls) ∧
    (∀ rest : List Bytes, fromDatabaseTx ([] :: rest) = Except.ok (TxClass.legacy, rest)) := by
  constructor
  · intro cls rest h
    simp only [fromDatabaseTx] at h
    split at h
    · rename_i htype
      simp only [Except.ok.injEq, Prod.mk.injEq] at h
      exact ⟨h.2.symm, h.1 ▸ htype⟩
    · rename_i htype
      simp only [Except.ok.injEq, Prod.mk.injEq] at h
      exact ⟨h.2.symm, h.1 ▸ htype⟩
    · exact absurd h (by simp)
  · intro rest
    rfl

/-- Witness for C9: `fromDatabaseTx_dispatch` at a concrete 10-element
record whose first element is empty, its success hypothesis discharged by
evaluation: the payload is the record minus its first element and the
classification is Legacy. -/
theorem fromDatabaseTx_dispatch_witness :
    ([[1], [1], [82, 8], [], [], [], [37], [1], [1]] : List Bytes) =
        ([[], [1], [1], [82, 8], [], [], [], [37], [1], [1]] : List Bytes).drop 1 ∧
      typeOf ((([[], [1], [1], [82, 8], [], [], [], [37], [1], [1]] :
          List Bytes).getD 0 []).head?) = some TxClass.legacy :=
  (fromDatabaseTx_dispatch _).1 TxClass.legacy _ rfl

/-- C10: the execution-view hash accessor returns the constant 32-byte
all-zero buffer for every transaction instance, signed or unsigned. -/
theorem toVmTransaction_hash_constant_zero (tx : LegacyTx) :
    (toVmTransaction tx).hash () = BUFFER_32_ZERO ∧
    BUFFER_32_ZERO = List.replicate 32 0 :=
  ⟨rfl, rfl⟩

end Ganache
